import Mathlib

/-!
Shallow embedding of the RESP codec, the RDB snapshot reader and the command
handlers of `app/main.py` (a small Redis-compatible server), together with
theorems checking the specification's claims against it.

Modelling conventions:
* a Python `bytearray` is a `List Nat` of byte values;
* Python code that can raise (`IndexError`, `KeyError`, `ValueError`,
  `AttributeError`, `AssertionError`, `UnicodeDecodeError`) is embedded as a
  function into `Option`, with `none` for the raising run;
* `str.encode` / `bytes.decode` are the strict UTF-8 codec, embedded below;
* `int(...)` is embedded on optional-sign decimal strings, the only shape the
  server ever feeds it.
-/

/-- UTF-8 encoding of one character, as byte values (models Python `str.encode`
at the single-character level). -/
def utf8EncodeCharNat (c : Char) : List Nat :=
  let n := c.toNat
  if n < 0x80 then [n]
  else if n < 0x800 then [0xC0 + n / 64, 0x80 + n % 64]
  else if n < 0x10000 then [0xE0 + n / 4096, 0x80 + (n / 64) % 64, 0x80 + n % 64]
  else [0xF0 + n / 262144, 0x80 + (n / 4096) % 64, 0x80 + (n / 64) % 64, 0x80 + n % 64]

/-- UTF-8 encoding of a string as a byte list (models Python `str.encode()`). -/
def strBytes (s : String) : List Nat :=
  (s.data.map utf8EncodeCharNat).flatten

/-- Strict UTF-8 decoder on byte lists: rejects stray continuation bytes,
overlong forms, surrogates and out-of-range code points, like Python's default
`bytes.decode()`. -/
def utf8DecodeAux : List Nat → Option (List Char)
  | [] => some []
  | b :: rest =>
    if b < 0x80 then
      (utf8DecodeAux rest).map (fun cs => Char.ofNat b :: cs)
    else if b < 0xC2 then none
    else if b < 0xE0 then
      match rest with
      | b1 :: rest2 =>
        if 0x80 ≤ b1 ∧ b1 < 0xC0 then
          (utf8DecodeAux rest2).map (fun cs =>
            Char.ofNat ((b - 0xC0) * 64 + (b1 - 0x80)) :: cs)
        else none
      | [] => none
    else if b < 0xF0 then
      match rest with
      | b1 :: b2 :: rest2 =>
        if (0x80 ≤ b1 ∧ b1 < 0xC0) ∧ (0x80 ≤ b2 ∧ b2 < 0xC0) ∧
            (b = 0xE0 → 0xA0 ≤ b1) ∧ (b = 0xED → b1 < 0xA0) then
          (utf8DecodeAux rest2).map (fun cs =>
            Char.ofNat ((b - 0xE0) * 4096 + (b1 - 0x80) * 64 + (b2 - 0x80)) :: cs)
        else none
      | _ => none
    else if b < 0xF5 then
      match rest with
      | b1 :: b2 :: b3 :: rest2 =>
        if (0x80 ≤ b1 ∧ b1 < 0xC0) ∧ (0x80 ≤ b2 ∧ b2 < 0xC0) ∧
            (0x80 ≤ b3 ∧ b3 < 0xC0) ∧ (b = 0xF0 → 0x90 ≤ b1) ∧ (b = 0xF4 → b1 < 0x90) then
          (utf8DecodeAux rest2).map (fun cs =>
            Char.ofNat ((b - 0xF0) * 262144 + (b1 - 0x80) * 4096 +
              (b2 - 0x80) * 64 + (b3 - 0x80)) :: cs)
        else none
      | _ => none
    else none

/-- Strict UTF-8 decode of a byte list to a string (models `bytes.decode()`;
`none` is a `UnicodeDecodeError`). -/
def utf8Decode (bs : List Nat) : Option String :=
  (utf8DecodeAux bs).map (fun cs => String.mk cs)

/-- Value of one decimal digit character, `none` when not a digit. -/
def charDigit (c : Char) : Option Nat :=
  if '0' ≤ c ∧ c ≤ '9' then some (c.toNat - 48) else none

/-- Accumulating decimal reading of a digit list. -/
def digitsValAux (acc : Nat) : List Char → Option Nat
  | [] => some acc
  | c :: rest =>
    match charDigit c with
    | some d => digitsValAux (acc * 10 + d) rest
    | none => none

/-- Python `int(...)` on the optional-sign decimal strings the codec produces
(`none` is a `ValueError`). -/
def pyInt (s : String) : Option Int :=
  match s.data with
  | [] => none
  | '-' :: rest =>
    if rest = [] then none else (digitsValAux 0 rest).map (fun n => -(n : Int))
  | '+' :: rest =>
    if rest = [] then none else (digitsValAux 0 rest).map (fun n => (n : Int))
  | l => (digitsValAux 0 l).map (fun n => (n : Int))

/-- A Python value that is either a `str` or an `int`.  The source's
`RespString` wrapper is constructed with a `str` everywhere except in
`RespInteger.decode`, which wraps the parsed `int` itself, so the model keeps
both possibilities. -/
inductive StrOrInt where
  | s (v : String)
  | i (v : Int)
deriving DecidableEq, Repr

/-- The RESP value objects of `app/main.py`: `RespString`, `RespInteger`,
`RespBulkString` (payload `None` for the null bulk string) and `RespArray`. -/
inductive RespValue where
  | respString (value : StrOrInt)
  | respInteger (value : Int)
  | respBulkString (value : Option String)
  | respArray (items : List RespValue)
deriving Repr

/-- Embedding of `_write_chunks(chunks, prefix, suffix)`: the prefix, the
chunks joined by CRLF, then the suffix. -/
def _write_chunks (chunks : List (List Nat)) (pre suf : List Nat) : List Nat :=
  pre ++ List.intercalate [13, 10] chunks ++ suf

/-- Fueled core of `_parse_chunk`: scan bytes until a CRLF pair, returning the
scanned bytes and the offset just past the CRLF.  `none` models the
`IndexError` Python raises when the scan runs off the end of the buffer. -/
def parseChunkAux (data : List Nat) : Nat → Nat → Option (List Nat × Nat)
  | 0, _ => none
  | n + 1, offset =>
    match data[offset]? with
    | none => none
    | some b =>
      if b = 13 then
        match data[offset + 1]? with
        | none => none
        | some b2 =>
          if b2 = 10 then some ([], offset + 2)
          else (parseChunkAux data n (offset + 1)).map (fun p => (b :: p.1, p.2))
      else (parseChunkAux data n (offset + 1)).map (fun p => (b :: p.1, p.2))

/-- Embedding of `_parse_chunk(data, offset)`.  The fuel `data.length - offset`
is exactly the number of loop steps possible before the scan runs off the end
of the buffer, so the fueled function agrees with the Python loop. -/
def _parse_chunk (data : List Nat) (offset : Nat) : Option (List Nat × Nat) :=
  parseChunkAux data (data.length - offset) offset

/-- Embedding of `RespString.decode`: skip the `+` tag, take one chunk, UTF-8
decode it. -/
def RespString.decode (data : List Nat) (offset : Nat) : Option (RespValue × Nat) := do
  let (value, offset1) ← _parse_chunk data (offset + 1)
  let s ← utf8Decode value
  some (.respString (.s s), offset1)

/-- Embedding of `RespInteger.decode`: skip the `:` tag, take one chunk, parse
it as an integer.  The source returns `RespString(int(value.decode()))` — a
`RespString` wrapper around the parsed integer, not a `RespInteger`. -/
def RespInteger.decode (data : List Nat) (offset : Nat) : Option (RespValue × Nat) := do
  let (value, offset1) ← _parse_chunk data (offset + 1)
  let s ← utf8Decode value
  let n ← pyInt s
  some (.respString (.i n), offset1)

/-- Embedding of `RespBulkString.decode`: skip the `$` tag, parse the length
chunk but discard it (the source comment reads `len – can be skipped?`), then
parse the payload as one more CRLF-terminated chunk. -/
def RespBulkString.decode (data : List Nat) (offset : Nat) : Option (RespValue × Nat) := do
  let (_, offset1) ← _parse_chunk data (offset + 1)
  let (value, offset2) ← _parse_chunk data offset1
  let s ← utf8Decode value
  some (.respBulkString (some s), offset2)

/-- Decode `n` consecutive RESP items with the given element decoder (the loop
body of `RespArray.decode`). -/
def decodeItems (dec : List Nat → Nat → Option (RespValue × Nat)) (data : List Nat) :
    Nat → Nat → Option (List RespValue × Nat)
  | 0, offset => some ([], offset)
  | n + 1, offset => do
    let (item, offset1) ← dec data offset
    let (items, offset2) ← decodeItems dec data n offset1
    some (item :: items, offset2)

/-- Embedding of `RespArray.decode`, parameterised by the recursive top-level
decoder: skip the `*` tag, parse the count chunk, then decode that many items.
Python's `range(l)` on a negative count is empty, hence `l.toNat`. -/
def RespArray.decodeWith (dec : List Nat → Nat → Option (RespValue × Nat))
    (data : List Nat) (offset : Nat) : Option (RespValue × Nat) := do
  let (bl, offset1) ← _parse_chunk data (offset + 1)
  let s ← utf8Decode bl
  let l ← pyInt s
  let (items, offset2) ← decodeItems dec data l.toNat offset1
  some (.respArray items, offset2)

/-- One dispatch step of `decode(data, offset)`: look at `data[offset]` and
dispatch through the `resp` table (`+`, `$`, `*`, `:` in source order).  A
missing byte (`IndexError`) or an unknown tag byte (`KeyError` on `resp`) is
`none`. -/
def decodeStep (dec : List Nat → Nat → Option (RespValue × Nat))
    (data : List Nat) (offset : Nat) : Option (RespValue × Nat) :=
  match data[offset]? with
  | none => none
  | some b =>
    if b = 43 then RespString.decode data offset
    else if b = 36 then RespBulkString.decode data offset
    else if b = 42 then RespArray.decodeWith dec data offset
    else if b = 58 then RespInteger.decode data offset
    else none

/-- Fueled embedding of the top-level `decode(data, offset)`; the fuel bounds
array-nesting depth and is irrelevant on non-array frames. -/
def decode (fuel : Nat) : List Nat → Nat → Option (RespValue × Nat) :=
  Nat.rec (fun _ _ => none) (fun _ ih => decodeStep ih) fuel

/-- Embedding of `RespString.encode`.  `none` models the `AttributeError`
raised when the wrapped value is an `int` (an `int` has no `.encode()`). -/
def RespString.encode : StrOrInt → Option (List Nat)
  | .s v => some (_write_chunks [strBytes v] [43] [13, 10])
  | .i _ => none

/-- Embedding of `RespInteger.encode`. -/
def RespInteger.encode (value : Int) : List Nat :=
  _write_chunks [strBytes (Int.repr value)] [58] [13, 10]

/-- Embedding of `RespBulkString.encode`.  The source guard is the truthiness
test `if self.value:`, so both `None` and the empty string take the
`b'$-1\x0d\x0a'` branch. -/
def RespBulkString.encode (value : Option String) : List Nat :=
  match value with
  | some s =>
    if s ≠ "" then
      _write_chunks [strBytes (Nat.repr (strBytes s).length), strBytes s] [36] [13, 10]
    else [36, 45, 49, 13, 10]
  | none => [36, 45, 49, 13, 10]

mutual
/-- Embedding of the `encode` methods as one dispatcher over the four RESP
classes. -/
def RespValue.encode : RespValue → Option (List Nat)
  | .respString v => RespString.encode v
  | .respInteger n => some (RespInteger.encode n)
  | .respBulkString v => some (RespBulkString.encode v)
  | .respArray items =>
    match RespValue.encodeList items with
    | none => none
    | some ds =>
      some (_write_chunks [strBytes (Nat.repr items.length), ds.flatten] [42] [])

/-- Encoding of a list of items (the `b''.join([item.encode() ...])` of
`RespArray.encode`), kept as a list of chunks. -/
def RespValue.encodeList : List RespValue → Option (List (List Nat))
  | [] => some []
  | v :: vs =>
    match RespValue.encode v, RespValue.encodeList vs with
    | some d, some ds => some (d :: ds)
    | _, _ => none
end

/-- Python `int.from_bytes(bs, 'little')` (unsigned, the source passes no
`signed=` argument). -/
def leUnsigned : List Nat → Nat
  | [] => 0
  | b :: rest => b + 256 * leUnsigned rest

/-- Python `int.from_bytes(bs, 'big')` (unsigned). -/
def beUnsigned (bs : List Nat) : Nat :=
  bs.foldl (fun acc b => acc * 256 + b) 0

/-- Result of `_decode_size`.  The source returns a 3-tuple
`(value, offset, is-special)` from three branches but a bare 2-tuple
`(value, offset)` from the 14-bit branch, so the model keeps both arities. -/
inductive SizeResult where
  | triple (val : Nat) (off : Nat) (special : Bool)
  | pair (val : Nat) (off : Nat)
deriving DecidableEq, Repr

/-- Embedding of `_decode_size(data, offset)`: dispatch on the two high bits of
the byte at `offset`.  `none` models the `IndexError` on a missing byte and the
`assert False` of the unreachable final branch. -/
def _decode_size (data : List Nat) (offset : Nat) : Option SizeResult :=
  match data[offset]? with
  | none => none
  | some b =>
    let flag := b / 64
    if flag = 0 then some (.triple (b % 64) (offset + 1) false)
    else if flag = 1 then
      match data[offset + 1]? with
      | none => none
      | some b2 => some (.pair ((b % 64) * 256 + b2) (offset + 2))
    else if flag = 2 then
      some (.triple (beUnsigned ((data.drop (offset + 1)).take 4)) (offset + 5) false)
    else if flag = 3 then some (.triple b (offset + 1) true)
    else none

/-- Embedding of `_decode_string(data, offset)`.  The `SizeResult.pair` case is
the `ValueError` raised when the 2-tuple from `_decode_size`'s 14-bit branch
fails to unpack into `(l, offset, ext)`; `l = 0xC3` is the
`assert False, 'lzf compression is not implemented'`. -/
def _decode_string (data : List Nat) (offset : Nat) : Option (String × Nat) :=
  match _decode_size data offset with
  | none => none
  | some (.pair _ _) => none
  | some (.triple l off ext) =>
    if ext then
      if l = 0xC3 then none
      else
        let n := if l = 0xC0 then 1 else if l = 0xC1 then 2 else if l = 0xC2 then 4 else l
        some (Nat.repr (leUnsigned ((data.drop off).take n)), off + n)
    else
      (utf8Decode ((data.drop off).take l)).map (fun s => (s, off + l))

/-- The shared key space `STATE.db.items`: a finite map from key to
`(value, expiration)`, embedded as an association list (first binding wins,
like `dict.get`).  `expiration` is `none` for Python `None`; note that the
integer `0` is also falsy in Python, which the handlers test with truthiness. -/
abbrev Db := List (String × (String × Option Int))

/-- Truthiness of the stored expiration (`v[1]` in `get_cmd`): `None` and `0`
are falsy, every other integer is truthy. -/
def expTruthy : Option Int → Bool
  | none => false
  | some t => t != 0

/-- Embedding of `get_cmd` at the value level: given the key space, the
requested key and the current wall clock `now` (unix millis), return the key
space after the call and the RESP reply written.  The source writes the null
bulk string when the key is missing (`not v`) or when
`v[1] and v[1] < now` holds, and never assigns to the key space. -/
def get_cmd (db : Db) (key : String) (now : Int) : Db × RespValue :=
  match List.lookup key db with
  | none => (db, .respBulkString none)
  | some (v, e) =>
    if expTruthy e && decide ((e.getD 0) < now) then (db, .respBulkString none)
    else (db, .respBulkString (some v))

/-- Embedding of `keys_cmd` at the value level: one `RespBulkString` per key of
`STATE.db.items.keys()`, in order, with no filtering. -/
def keys_cmd (db : Db) : RespValue :=
  .respArray ((db.map Prod.fst).map (fun k => .respBulkString (some k)))

/-- The replication role enum. -/
inductive RedisReplicationRole where
  | master
  | slave
deriving DecidableEq, Repr

/-- The `RedisReplication` dataclass. -/
structure RedisReplication where
  role : RedisReplicationRole
  master_replid : Option String
  master_repl_offset : Int
  host : Option (String × Int)

/-- The `RedisDatabase` object: note that `dbfilename` lives here, on the
database object, not on the instance state. -/
structure RedisDatabase where
  dbfilename : String
  rdbv : String
  items : Db

/-- The `InstanceState` dataclass.  Its only fields are `dir`, `db` and
`replication`; in particular it has no `dbfilename` attribute. -/
structure InstanceState where
  dir : Option String := none
  db : Option RedisDatabase := none
  replication : Option RedisReplication := none

/-- Embedding of the `GET` subcommand of `config_cmd` at the value level.  The
source computes `STATE.dir if dt.items[2].value == 'dir' else STATE.dbfilename`;
since `InstanceState` has no `dbfilename` field, every name other than `"dir"`
raises `AttributeError` before a reply is written, modelled as `none`. -/
def config_cmd_get (st : InstanceState) (name : String) : Option RespValue :=
  if name = "dir" then
    some (.respArray [.respBulkString (some name), .respBulkString st.dir])
  else none

/-- Joining two chunks with a separator, the explicit form of
`List.intercalate` on a two-element list. -/
theorem intercalate_pair_eq (sep a b : List Nat) :
    List.intercalate sep [a, b] = a ++ sep ++ b := by
  simp [List.intercalate, List.intersperse]

/-- C1: decode after encode is not the identity on the four tag types.  At
`Integer 5`, encoding yields `:5` CRLF but decoding that buffer returns a
`RespString` wrapper holding the integer, not `Integer 5`; at the null
BulkString, encoding yields `$-1` CRLF but decoding that buffer runs off the
end of it (`IndexError`) instead of returning the value with its length; and
at `BulkString "a\r\nb"` decoding the ten-byte encoding returns
`BulkString "a"` after seven bytes. -/
theorem decode_encode_not_roundtrip :
    RespValue.encode (.respInteger 5) = some [58, 53, 13, 10] ∧
    decode 3 [58, 53, 13, 10] 0 = some (.respString (.i 5), 4) ∧
    RespValue.respString (.i 5) ≠ RespValue.respInteger 5 ∧
    RespValue.encode (.respBulkString none) = some [36, 45, 49, 13, 10] ∧
    decode 3 [36, 45, 49, 13, 10] 0 = none ∧
    RespValue.encode (.respBulkString (some "a\r\nb")) =
      some [36, 52, 13, 10, 97, 13, 10, 98, 13, 10] ∧
    decode 3 [36, 52, 13, 10, 97, 13, 10, 98, 13, 10] 0 =
      some (.respBulkString (some "a"), 7) ∧
    (RespValue.respBulkString (some "a") ≠ RespValue.respBulkString (some "a\r\nb") ∨
      (7 : Nat) ≠ 10) :=
  ⟨rfl, rfl, fun h => RespValue.noConfusion h, rfl, rfl, rfl, rfl, Or.inr (by decide)⟩

/-- C2: the BulkString decoder does not let the declared length govern the
payload.  On `$-1` CRLF it does not yield the null BulkString: it scans for a
payload chunk past the end of the buffer and fails; on `$4` CRLF `a` CRLF `b`
CRLF it stops at the first embedded CRLF, returning `BulkString "a"` and
offset 7 instead of the four declared payload bytes. -/
theorem bulkstring_decode_ignores_declared_length :
    RespBulkString.decode [36, 45, 49, 13, 10] 0 = none ∧
    RespBulkString.decode [36, 52, 13, 10, 97, 13, 10, 98, 13, 10] 0 =
      some (.respBulkString (some "a"), 7) ∧
    ("a" : String) ≠ "a\r\nb" :=
  ⟨rfl, rfl, by decide⟩

/-- C3 counterexample: at the exact instant `now = expires_at` (both 5 here),
`get_cmd` still returns the stored value, not the null BulkString the claim
requires for `expires_at ≤ now`. -/
theorem get_cmd_value_at_exact_expiry :
    (5 : Int) ≤ 5 ∧
    (get_cmd [("k", ("v", some 5))] "k" 5).2 = RespValue.respBulkString (some "v") ∧
    RespValue.respBulkString (some "v") ≠ RespValue.respBulkString none :=
  ⟨le_refl 5, rfl, by simp⟩

/-- C3 amended: `get_cmd` replies with the null BulkString exactly when the key
is absent, or its stored expiration is a nonzero timestamp strictly below
`now`; in particular a key whose expiration equals `now` is still served. -/
theorem get_cmd_null_iff (db : Db) (key : String) (now : Int) :
    (get_cmd db key now).2 = RespValue.respBulkString none ↔
      (List.lookup key db = none ∨
        ∃ v t, List.lookup key db = some (v, some t) ∧ t ≠ 0 ∧ t < now) := by
  unfold get_cmd
  cases h : List.lookup key db with
  | none => simp
  | some ve =>
    obtain ⟨v, e⟩ := ve
    cases e with
    | none => simp [expTruthy]
    | some t =>
      by_cases ht : t = 0
      · subst ht
        simp [expTruthy]
      · by_cases hlt : t < now
        · simp [expTruthy, ht, hlt]
          exact ⟨v, t, ⟨rfl, rfl⟩, ht, hlt⟩
        · simp [expTruthy, ht, hlt]
          omega

/-- C4: on a size byte whose high bits are `01`, `_decode_size` does compute
the 14-bit big-endian length and advance by two, but it returns a bare pair
without the is-special flag; `_decode_string` then fails to unpack the result
(`ValueError`), so string decoding through this branch never succeeds. -/
theorem decode_string_fourteen_bit_branch_fails (data : List Nat) (offset b c : Nat)
    (hb : data[offset]? = some b) (hc : data[offset + 1]? = some c)
    (h64 : 64 ≤ b) (h128 : b < 128) :
    _decode_size data offset = some (.pair ((b % 64) * 256 + c) (offset + 2)) ∧
    _decode_string data offset = none := by
  have hflag : b / 64 = 1 := by omega
  have hsz : _decode_size data offset = some (.pair ((b % 64) * 256 + c) (offset + 2)) := by
    unfold _decode_size
    rw [hb]
    simp [hflag, hc]
  refine ⟨hsz, ?_⟩
  unfold _decode_string
  rw [hsz]

/-- C4 witness: the buffer `[0x44, 0x05]` at offset 0 declares a 14-bit size
`0x0405 = 1029`, and string decoding over it fails. -/
theorem decode_string_fourteen_bit_branch_fails_witness :
    _decode_size [68, 5] 0 = some (.pair 1029 2) ∧ _decode_string [68, 5] 0 = none :=
  decode_string_fourteen_bit_branch_fails [68, 5] 0 68 5 rfl rfl (by decide) (by decide)

/-- C5 counterexample: the special encoding `0xC0` followed by the byte `0xFF`
decodes to the text `"255"` — the unsigned reading — not the `"-1"` a signed
1-byte little-endian reading would give; no minus sign is produced. -/
theorem decode_string_special_signed_counterexample :
    _decode_string [192, 255] 0 = some ("255", 2) ∧ ("255" : String) ≠ "-1" :=
  ⟨rfl, by decide⟩

/-- C5 amended: the special encodings `0xC0`, `0xC1`, `0xC2` render the 1-, 2-
or 4-byte payload as the decimal text of the little-endian UNSIGNED integer
value, consuming exactly that many payload bytes. -/
theorem decode_string_special_renders_unsigned (b0 b1 b2 b3 : Nat) (rest : List Nat) :
    _decode_string (192 :: b0 :: rest) 0 = some (Nat.repr (leUnsigned [b0]), 2) ∧
    _decode_string (193 :: b0 :: b1 :: rest) 0 = some (Nat.repr (leUnsigned [b0, b1]), 3) ∧
    _decode_string (194 :: b0 :: b1 :: b2 :: b3 :: rest) 0 =
      some (Nat.repr (leUnsigned [b0, b1, b2, b3]), 5) := by
  have h0 : _decode_size (192 :: b0 :: rest) 0 = some (.triple 192 1 true) := by
    simp [_decode_size]
  have h1 : _decode_size (193 :: b0 :: b1 :: rest) 0 = some (.triple 193 1 true) := by
    simp [_decode_size]
  have h2 : _decode_size (194 :: b0 :: b1 :: b2 :: b3 :: rest) 0 =
      some (.triple 194 1 true) := by
    simp [_decode_size]
  refine ⟨?_, ?_, ?_⟩
  · unfold _decode_string
    rw [h0]
    rfl
  · unfold _decode_string
    rw [h1]
    rfl
  · unfold _decode_string
    rw [h2]
    rfl

/-- C6: `CONFIG GET dir` replies with the two-element array of the name and
the configured directory, but `CONFIG GET dbfilename` reaches
`STATE.dbfilename`, an attribute `InstanceState` does not have, and dies with
an `AttributeError` instead of replying. -/
theorem config_get_dbfilename_fails (st : InstanceState) (d : String)
    (hdir : st.dir = some d) :
    config_cmd_get st "dir" =
      some (.respArray [.respBulkString (some "dir"), .respBulkString (some d)]) ∧
    config_cmd_get st "dbfilename" = none := by
  refine ⟨?_, rfl⟩
  have h : config_cmd_get st "dir" =
      some (.respArray [.respBulkString (some "dir"), .respBulkString st.dir]) := rfl
  rw [h, hdir]

/-- C6 witness: with `dir = "/tmp"`, `CONFIG GET dir` succeeds and
`CONFIG GET dbfilename` errors. -/
theorem config_get_dbfilename_fails_witness :
    config_cmd_get ⟨some "/tmp", none, none⟩ "dir" =
      some (.respArray [.respBulkString (some "dir"), .respBulkString (some "/tmp")]) ∧
    config_cmd_get ⟨some "/tmp", none, none⟩ "dbfilename" = none :=
  config_get_dbfilename_fails ⟨some "/tmp", none, none⟩ "/tmp" rfl

/-- C7 counterexample: the empty string is encoded as the null bulk string
`$-1` CRLF (the source tests `if self.value:`, and the empty string is falsy),
not as `$0` CRLF CRLF as the claim's shape requires. -/
theorem bulkstring_encode_empty_counterexample :
    RespValue.encode (.respBulkString (some "")) = some [36, 45, 49, 13, 10] ∧
    [36, 45, 49, 13, 10] ≠
      [36] ++ strBytes (Nat.repr (strBytes "").length) ++ [13, 10] ++ strBytes "" ++ [13, 10] :=
  ⟨rfl, by decide⟩

/-- C7 amended: for every non-empty string, the BulkString encoding is `$`,
the decimal of the UTF-8 byte length of the payload (not its code-point
count), CRLF, the payload bytes, CRLF. -/
theorem bulkstring_encode_length_prefix (s : String) (hs : s ≠ "") :
    RespValue.encode (.respBulkString (some s)) =
      some ([36] ++ strBytes (Nat.repr (strBytes s).length) ++ [13, 10] ++
        strBytes s ++ [13, 10]) := by
  have h : RespValue.encode (.respBulkString (some s)) =
      some (RespBulkString.encode (some s)) := rfl
  rw [h]
  simp only [RespBulkString.encode]
  rw [if_pos hs]
  unfold _write_chunks
  rw [intercalate_pair_eq]
  simp [List.append_assoc]

/-- C7 witness: at `"é"`, one code point but two UTF-8 bytes, the length
prefix is the byte length 2. -/
theorem bulkstring_encode_length_prefix_witness :
    RespValue.encode (.respBulkString (some "é")) =
      some ([36] ++ strBytes (Nat.repr (strBytes "é").length) ++ [13, 10] ++
        strBytes "é" ++ [13, 10]) :=
  bulkstring_encode_length_prefix "é" (by decide)

/-- C8: when the byte at the current offset is none of `+`, `:`, `$`, `*`, the
decoder dispatch finds no entry in the `resp` table and errors out; it never
returns a decoded value. -/
theorem decode_unknown_tag_is_error (fuel : Nat) (data : List Nat) (offset b : Nat)
    (hb : data[offset]? = some b)
    (hplus : b ≠ 43) (hcolon : b ≠ 58) (hdollar : b ≠ 36) (hstar : b ≠ 42) :
    decode fuel data offset = none := by
  cases fuel with
  | zero => rfl
  | succ n =>
    show decodeStep (decode n) data offset = none
    unfold decodeStep
    rw [hb]
    simp [hplus, hcolon, hdollar, hstar]

/-- C8 witness: the buffer holding the single byte `'a'` decodes to an error. -/
theorem decode_unknown_tag_is_error_witness : decode 5 [97] 0 = none :=
  decode_unknown_tag_is_error 5 [97] 0 97 rfl (by decide) (by decide) (by decide) (by decide)

/-- C9: `get_cmd` never mutates the key space - the map of entries after a GET,
expired or not, is the map before it. -/
theorem get_cmd_never_mutates (db : Db) (key : String) (now : Int) :
    (get_cmd db key now).1 = db := by
  unfold get_cmd
  cases List.lookup key db with
  | none => rfl
  | some ve =>
    obtain ⟨v, e⟩ := ve
    dsimp only
    split <;> rfl

/-- C10: `keys_cmd` replies with an array holding exactly one BulkString per
entry physically present in the key space, in order and with no expiry
filtering, so a key whose expiration lies in the past is still listed. -/
theorem keys_cmd_enumerates_all_keys (db : Db) (k v : String) (e : Option Int)
    (hmem : (k, (v, e)) ∈ db) :
    keys_cmd db =
      RespValue.respArray (db.map (fun kv => RespValue.respBulkString (some kv.1))) ∧
    RespValue.respBulkString (some k) ∈
      db.map (fun kv => RespValue.respBulkString (some kv.1)) ∧
    (db.map (fun kv => RespValue.respBulkString (some kv.1))).length = db.length := by
  refine ⟨?_, ?_, by simp⟩
  · unfold keys_cmd
    rw [List.map_map]
    rfl
  · exact List.mem_map.mpr ⟨(k, (v, e)), hmem, rfl⟩

/-- C10 witness: a key space holding the single key `"apple"` with an
expiration already in the past still lists `"apple"`. -/
theorem keys_cmd_enumerates_all_keys_witness :
    keys_cmd [("apple", ("pear", some 1))] =
      RespValue.respArray
        (([("apple", ("pear", some 1))] : Db).map
          (fun kv => RespValue.respBulkString (some kv.1))) ∧
    RespValue.respBulkString (some "apple") ∈
      ([("apple", ("pear", some 1))] : Db).map
        (fun kv => RespValue.respBulkString (some kv.1)) ∧
    (([("apple", ("pear", some 1))] : Db).map
      (fun kv => RespValue.respBulkString (some kv.1))).length =
      ([("apple", ("pear", some 1))] : Db).length :=
  keys_cmd_enumerates_all_keys [("apple", ("pear", some 1))] "apple" "pear" (some 1)
    (by simp)
